import Mathlib

/-!
Verification development for the ARISU host-side capture/input adapter.

The Rust sources are shallowly embedded: each `def` below mirrors one
function (or one arm of a `match`) of the repository.  Machine integers are
modelled as `Nat` with an explicit `% 2 ^ 32` where the source uses wrapping
`u32` arithmetic; fallible paths return `Option`.
-/

/-- Structure `ScreenSize` from `screen.rs`: the pair of the client-announced
resolution and the server capture resolution (both `(u16, u16)` pairs,
modelled as `Nat × Nat`). -/
structure ScreenSize where
  client : Nat × Nat
  server : Nat × Nat
deriving DecidableEq, Repr

/-- Structure `CapturedData` from `screen/display.rs`: one captured frame rectangle
(`x`, `y`, `width`, `height` are `u16`; `data` is the BGRA byte vector). -/
structure CapturedData where
  x : Nat
  y : Nat
  width : Nat
  height : Nat
  data : List Nat
deriving DecidableEq, Repr

/-- The display-side `Job` enum from `screen/display.rs`.  The oneshot
response channels are modelled by the `DisplayJobResult` value returned by
`handle_display_job`. -/
inductive DisplayJob where
  | getSize
  | setSize (width height : Nat)
  | captureStart
  | captureStop (index : Nat)
deriving DecidableEq, Repr

/-- The sound-side `Job` enum from `screen/sound.rs`. -/
inductive SoundJob where
  | start
  | stop
deriving DecidableEq, Repr

/-- Enum `ScreenJob` from `screen.rs`: the union of display and sound jobs that
travels over the actor's bounded mpsc channel. -/
inductive ScreenJobM where
  | display (j : DisplayJob)
  | sound (j : SoundJob)
deriving DecidableEq, Repr

/-- The `DisplayUpdates` handle as far as the actor protocol is concerned: the
frame-pulling handle returned by a `CaptureStart`, carrying the opaque
`ScreenOutputIndex` that identifies the attached native output callback
(the triple-buffer consumer end and the notification handle live in the
relay model below). -/
structure DisplayUpdatesHandle where
  index : Nat
deriving DecidableEq, Repr

/-- What a display job sends back on its oneshot channel (or, for `SetSize`,
whether the `watch` channel broadcast a change notification). -/
inductive DisplayJobResult where
  | size (width height : Nat)
  | setSizeDone (notifiedWatchers : Bool)
  | captureStarted (handle : DisplayUpdatesHandle)
  | stopped
deriving DecidableEq, Repr

/-- Struct `ScreenCaptureContext` from `screen.rs`, restricted to the state the
jobs read and write: the `watch`-held `ScreenSize`, the native stream's
attached output handlers per media type, and the triple buffers allocated
so far (`tripleBuffers` records each allocation's initial value; its length
counts allocations).  `nextOutputHandle` supplies the fresh opaque handle
the native registry hands back on attach. -/
structure ScreenCaptureContext where
  displaySize : ScreenSize
  screenOutputs : List Nat
  audioOutputs : List Nat
  nextOutputHandle : Nat
  tripleBuffers : List CapturedData
deriving DecidableEq, Repr

/-- The two `SCStreamOutputType` values used by the sources. -/
inductive OutputType where
  | screen
  | audio
deriving DecidableEq, Repr

/-- Modelled from the spec: `SCStream::add_output_handler` is external
capability code not under `src`; per the spec ("attach a sample-delivery
callback per media type", "each identified by an opaque handle used later
to detach it") it registers one callback for the given media type and
returns a fresh opaque handle. -/
def add_output_handler (s : ScreenCaptureContext) (t : OutputType) :
    ScreenCaptureContext × Nat :=
  match t with
  | .screen =>
      ({ s with screenOutputs := s.screenOutputs ++ [s.nextOutputHandle],
                nextOutputHandle := s.nextOutputHandle + 1 },
       s.nextOutputHandle)
  | .audio =>
      ({ s with audioOutputs := s.audioOutputs ++ [s.nextOutputHandle],
                nextOutputHandle := s.nextOutputHandle + 1 },
       s.nextOutputHandle)

/-- Modelled from the spec: `SCStream::remove_output_handler` is external
capability code not under `src`; per the spec it detaches the callback
matching the opaque handle and is a no-op when no attached callback
matches. -/
def remove_output_handler (s : ScreenCaptureContext) (idx : Nat)
    (t : OutputType) : ScreenCaptureContext :=
  match t with
  | .screen => { s with screenOutputs := s.screenOutputs.erase idx }
  | .audio => { s with audioOutputs := s.audioOutputs.erase idx }

/-- Function `ScreenCaptureContext::handle_display_job` from `screen/display.rs`.
`GetSize` replies with the server component; `SetSize` runs the
`send_if_modified` closure on the `watch`-held `ScreenSize` (updating only
the client component and broadcasting iff the closure returned `true`);
`CaptureStart` allocates a triple buffer whose initial value is sized from
the current server resolution, attaches a screen output callback and
replies with the frame-pulling handle; `CaptureStop` detaches the matching
output callback. -/
def handle_display_job (s : ScreenCaptureContext) (j : DisplayJob) :
    ScreenCaptureContext × DisplayJobResult :=
  match j with
  | .getSize =>
      (s, .size s.displaySize.server.1 s.displaySize.server.2)
  | .setSize width height =>
      if s.displaySize.client ≠ (width, height) then
        ({ s with displaySize :=
            { s.displaySize with client := (width, height) } },
         .setSizeDone true)
      else
        (s, .setSizeDone false)
  | .captureStart =>
      let initial : CapturedData :=
        { data := [],
          width := s.displaySize.server.1,
          height := s.displaySize.server.2,
          x := 0,
          y := 0 }
      let s1 := { s with tripleBuffers := s.tripleBuffers ++ [initial] }
      let attached := add_output_handler s1 .screen
      (attached.1, .captureStarted { index := attached.2 })
  | .captureStop idx =>
      (remove_output_handler s idx .screen, .stopped)

/-- Function `ScreenCaptureContext::handle_sound_job` from `screen/sound.rs`.
`Start` attaches an audio output callback; in the source the `Stop` arm
only logs — the `remove_output_handler` call is commented out — so it
leaves the context unchanged. -/
def handle_sound_job (s : ScreenCaptureContext) (j : SoundJob) :
    ScreenCaptureContext :=
  match j with
  | .start => (add_output_handler s .audio).1
  | .stop => s

/-- Capacity of the actor's bounded job channel (`mpsc::channel::<ScreenJob>(10)`
in `screen.rs`). -/
def screenJobChannelCapacity : Nat := 10

/-- Method `mpsc::Sender::try_send` on the bounded job channel, modelled on the
queue contents: appends when the queue is below capacity, otherwise fails
(returns `false`) leaving the queue unchanged. -/
def try_send (queue : List ScreenJobM) (j : ScreenJobM) :
    List ScreenJobM × Bool :=
  if queue.length < screenJobChannelCapacity then (queue ++ [j], true)
  else (queue, false)

/-- The `impl Drop for DisplayUpdates` from `screen/display.rs`: a best-effort
`try_send` of `CaptureStop` carrying the handle's output index; the result
is discarded (`let _ = ...`). -/
def displayUpdatesDrop (h : DisplayUpdatesHandle)
    (queue : List ScreenJobM) : List ScreenJobM :=
  (try_send queue (.display (.captureStop h.index))).1

/-- Modelled from the spec: the `triple_buffer` crate's three-slot state is
external code not under `src`; per the spec's glossary it is "a 3-slot
rotating buffer allowing one writer and one reader to proceed without
locking by always writing into a free slot and atomically publishing it as
the new current slot".  `input` is the producer-side slot, `output` the
consumer-side slot, `back` the standby slot, and `dirty` records that the
standby slot holds data published since the consumer's last `update`. -/
structure TripleBuffer (α : Type) where
  input : α
  back : α
  output : α
  dirty : Bool
deriving DecidableEq, Repr

namespace TripleBuffer

/-- Modelled from the spec: `triple_buffer::Input::publish` after the
producer has written `frame` into the input slot — the input and standby
slots swap roles and the standby slot is marked dirty.  It is a total
function of the producer-side state alone: it never waits on the
consumer. -/
def publish {α : Type} (tb : TripleBuffer α) (frame : α) : TripleBuffer α :=
  { input := tb.back, back := frame, output := tb.output, dirty := true }

/-- Modelled from the spec: `triple_buffer::Output::update` — when the
standby slot is dirty it becomes the new output slot (the old output slot
becomes standby) and the flag clears; otherwise nothing changes.  Returns
whether a fresh frame was taken. -/
def update {α : Type} (tb : TripleBuffer α) : TripleBuffer α × Bool :=
  if tb.dirty then
    ({ input := tb.input, back := tb.output, output := tb.back,
       dirty := false }, true)
  else (tb, false)

/-- Modelled from the spec: `triple_buffer::Output::peek_output_buffer`
reads the consumer-side slot. -/
def peek_output_buffer {α : Type} (tb : TripleBuffer α) : α := tb.output

end TripleBuffer

/-- The frame-relay state seen by one `DisplayUpdates` consumer: the triple
buffer plus the `tokio::sync::Notify` wake signal, the latter modelled as a
flag set by `notify_waiters` and consumed when the awaited
`notified()` completes. -/
structure RelayState where
  buf : TripleBuffer CapturedData
  notified : Bool
deriving DecidableEq, Repr

/-- Callback `DisplayCaptureDelegate::did_output_sample_buffer` from
`screen/display.rs`, reduced to its effect on the relay state once a
complete frame has been extracted and converted into `frame` (the
native-sample-buffer plumbing, dirty-rect bounding box and
`convert_buffer` pixel copy have no bearing on the relay discipline): the
frame is published into the triple buffer and the waiting consumer is
notified. -/
def did_output_sample_buffer (s : RelayState) (frame : CapturedData) :
    RelayState :=
  { buf := s.buf.publish frame, notified := true }

/-- Runs `N` producer deliveries in a row with no intervening consumer read. -/
def publishAll (s : RelayState) (frames : List CapturedData) : RelayState :=
  frames.foldl did_output_sample_buffer s

/-- Value `PixelFormat::BgrA32`, the only pixel format the source emits. -/
inductive PixelFormatM where
  | bgra32
deriving DecidableEq, Repr

/-- The `ironrdp::server::BitmapUpdate` fields set by `next_update`. -/
structure BitmapUpdateM where
  x : Nat
  y : Nat
  width : Nat
  height : Nat
  format : PixelFormatM
  data : List Nat
  stride : Nat
deriving DecidableEq, Repr

/-- Type `ironrdp::server::DisplayUpdate` as produced by the source (only the
`Bitmap` variant is ever built). -/
inductive DisplayUpdateM where
  | bitmap (b : BitmapUpdateM)
deriving DecidableEq, Repr

/-- The `BitmapUpdate` literal built at the end of
`DisplayUpdates::next_update`: every field comes from the peeked
triple-buffer contents, the format is `BgrA32` and the stride is
`4 * width`. -/
def mkBitmapUpdate (d : CapturedData) : BitmapUpdateM :=
  { x := d.x, y := d.y, width := d.width, height := d.height,
    format := .bgra32, data := d.data, stride := 4 * d.width }

/-- Method `DisplayUpdates::next_update` from `screen/display.rs`: suspend on
`update_notification.notified()` (modelled: `none` while the flag is
down), then `update()` the triple-buffer consumer end, peek the output
slot and unconditionally return `Some` of the bitmap update built from
it. -/
def next_update (s : RelayState) : Option (DisplayUpdateM × RelayState) :=
  if s.notified then
    let taken := s.buf.update
    some (.bitmap (mkBitmapUpdate taken.1.peek_output_buffer),
          { buf := taken.1, notified := false })
  else none

/-- Struct `Modifiers` from `input.rs`: the persistent modifier state. -/
structure Modifiers where
  shift : Bool
  command : Bool
  option : Bool
  control : Bool
deriving DecidableEq, Repr

/-- Constant `CGEventFlags::MaskShift`. -/
def maskShift : Nat := 0x20000

/-- Constant `CGEventFlags::MaskControl`. -/
def maskControl : Nat := 0x40000

/-- Constant `CGEventFlags::MaskAlternate`. -/
def maskAlternate : Nat := 0x80000

/-- Constant `CGEventFlags::MaskCommand`. -/
def maskCommand : Nat := 0x100000

/-- The flag word assembled inside `InputHandler::apply_modifier_to_event`. -/
def modifier_flags (m : Modifiers) : Nat :=
  (((if m.command then maskCommand else 0) |||
    (if m.control then maskControl else 0)) |||
    (if m.option then maskAlternate else 0)) |||
   (if m.shift then maskShift else 0)

/-- Type `CGMouseButton`: the values the source mentions, plus a stand-in for
every other value of the open native integer type (the `_` arm of the drag
`match`). -/
inductive CGMouseButtonM where
  | left
  | right
  | center
  | otherButton
deriving DecidableEq, Repr

/-- The `CGEventType`s the source creates (unicode key events are
`new_keyboard_event` with virtual key 0 plus
`keyboard_set_unicode_string`, kept as their own constructors carrying the
UTF-16 code unit). -/
inductive CGEventTypeM where
  | leftMouseDown
  | leftMouseUp
  | rightMouseDown
  | rightMouseUp
  | leftMouseDragged
  | rightMouseDragged
  | otherMouseDragged
  | scrollWheel
  | keyDown (virtualKey : Nat)
  | keyUp (virtualKey : Nat)
  | unicodeKeyDown (code : Nat)
  | unicodeKeyUp (code : Nat)
deriving DecidableEq, Repr

/-- A synthesized `CGEvent` as the source configures it: its type, the
point and button for mouse events, and the flag word (`0` when
`CGEvent::set_flags` was never called — freshly created events carry no
mask). -/
structure CGEventModel where
  type : CGEventTypeM
  point : Option (ℚ × ℚ) := none
  button : Option CGMouseButtonM := none
  flags : Nat := 0
deriving DecidableEq, Repr

/-- Method `InputHandler::apply_modifier_to_event` from `input.rs`: assemble the
flag word from the persistent modifier state and set it on the event iff
it is non-zero. -/
def apply_modifier_to_event (m : Modifiers) (e : CGEventModel) :
    CGEventModel :=
  let flags := modifier_flags m
  if flags ≠ 0 then { e with flags := flags } else e

/-- The `ironrdp::server::KeyboardEvent` variants handled by the source (the
`_` arm is `otherEvent`). -/
inductive KeyboardEventM where
  | pressed (code : Nat) (extended : Bool)
  | released (code : Nat) (extended : Bool)
  | unicodePressed (code : Nat)
  | unicodeReleased (code : Nat)
  | otherEvent
deriving DecidableEq, Repr

/-- The `ironrdp::server::MouseEvent` variants handled by the source (the `_`
arm is `otherEvent`). -/
inductive MouseEventM where
  | leftPressed
  | leftReleased
  | rightPressed
  | rightReleased
  | move (x y : Nat)
  | verticalScroll (value : Int)
  | otherEvent
deriving DecidableEq, Repr

/-- Struct `InputHandler` from `input.rs` (the `watch::Receiver<ScreenSize>` is
modelled by its current value; coordinates are exact rationals standing
for the `f64` fields of `CGPoint`). -/
structure InputHandler where
  last_mouse_point : ℚ × ℚ
  down_mouse_button : Option CGMouseButtonM
  modifier_state : Modifiers
  client_screen_size : ScreenSize
deriving DecidableEq, Repr

/-- Constructor `InputHandler::new`. -/
def InputHandler.new (sz : ScreenSize) : InputHandler :=
  { last_mouse_point := (0, 0),
    down_mouse_button := none,
    modifier_state :=
      { shift := false, command := false, option := false, control := false },
    client_screen_size := sz }

/-- Function `convert_non_unicode_key` from `input.rs`: the fixed scan-code table.
Modifier arms update the persistent state as a side effect; `PrintScr`,
`ScrollLock` and `Break` return `None`; every unmatched `(code, extended)`
pair falls through to the numeric identity arm. -/
def convert_non_unicode_key (code : Nat) (extended pressed : Bool)
    (m : Modifiers) : Option Nat × Modifiers :=
  match code, extended with
  | 14, false => (some 0x33, m)
  | 91, true => (some 0x37, { m with command := pressed })
  | 29, false => (some 0x3B, { m with control := pressed })
  | 42, false => (some 0x38, { m with shift := pressed })
  | 56, false => (some 0x3A, { m with option := pressed })
  | 28, false => (some 0x24, m)
  | 16, false => (some 0x0C, m)
  | 17, false => (some 0x0D, m)
  | 18, false => (some 0x0E, m)
  | 19, false => (some 0x0F, m)
  | 20, false => (some 0x11, m)
  | 21, false => (some 0x10, m)
  | 22, false => (some 0x20, m)
  | 23, false => (some 0x22, m)
  | 24, false => (some 0x1F, m)
  | 25, false => (some 0x23, m)
  | 30, false => (some 0x00, m)
  | 31, false => (some 0x01, m)
  | 32, false => (some 0x02, m)
  | 33, false => (some 0x03, m)
  | 34, false => (some 0x05, m)
  | 35, false => (some 0x04, m)
  | 36, false => (some 0x26, m)
  | 37, false => (some 0x28, m)
  | 38, false => (some 0x25, m)
  | 39, false => (some 0x29, m)
  | 44, false => (some 0x06, m)
  | 45, false => (some 0x07, m)
  | 46, false => (some 0x08, m)
  | 47, false => (some 0x09, m)
  | 48, false => (some 0x0B, m)
  | 49, false => (some 0x2D, m)
  | 50, false => (some 0x2E, m)
  | 59, false => (some 0x7A, m)
  | 60, false => (some 0x78, m)
  | 61, false => (some 0x63, m)
  | 62, false => (some 0x76, m)
  | 63, false => (some 0x60, m)
  | 64, false => (some 0x61, m)
  | 65, false => (some 0x62, m)
  | 66, false => (some 0x64, m)
  | 67, false => (some 0x65, m)
  | 68, false => (some 0x6D, m)
  | 87, false => (some 0x67, m)
  | 88, false => (some 0x6F, m)
  | 15, false => (some 0x30, m)
  | 75, true => (some 0x7B, m)
  | 72, true => (some 0x7E, m)
  | 80, true => (some 0x7D, m)
  | 77, true => (some 0x7C, m)
  | 83, true => (some 0x75, m)
  | 71, true => (some 0x73, m)
  | 79, true => (some 0x77, m)
  | 73, true => (some 0x74, m)
  | 81, true => (some 0x79, m)
  | 1, false => (some 0x35, m)
  | 55, true => (none, m)
  | 70, false => (none, m)
  | 69, false => (none, m)
  | 2, false => (some 0x12, m)
  | 3, false => (some 0x13, m)
  | 4, false => (some 0x14, m)
  | 5, false => (some 0x15, m)
  | 6, false => (some 0x16, m)
  | 7, false => (some 0x17, m)
  | 8, false => (some 0x18, m)
  | 9, false => (some 0x19, m)
  | 10, false => (some 0x1A, m)
  | 11, false => (some 0x1B, m)
  | _, _ => (some code, m)

/-- Method `InputHandler::convert_keyboard_event` from `input.rs`: table-mapped
`Pressed`/`Released` events run the scan-code table (mutating the modifier
state) and then `apply_modifier_to_event` with the updated state; the
`Unicode` variants bypass the table and build a bare key event with
virtual key 0 and the unicode code unit — no modifier application;
unhandled variants are errors (`none`). -/
def convert_keyboard_event (h : InputHandler) (ev : KeyboardEventM) :
    Option CGEventModel × InputHandler :=
  match ev with
  | .pressed code extended =>
      let r := convert_non_unicode_key code extended true h.modifier_state
      let h1 := { h with modifier_state := r.2 }
      match r.1 with
      | none => (none, h1)
      | some vk =>
          (some (apply_modifier_to_event h1.modifier_state
                  { type := .keyDown vk }), h1)
  | .released code extended =>
      let r := convert_non_unicode_key code extended false h.modifier_state
      let h1 := { h with modifier_state := r.2 }
      match r.1 with
      | none => (none, h1)
      | some vk =>
          (some (apply_modifier_to_event h1.modifier_state
                  { type := .keyUp vk }), h1)
  | .unicodePressed code =>
      (some { type := .unicodeKeyDown code }, h)
  | .unicodeReleased code =>
      (some { type := .unicodeKeyUp code }, h)
  | .otherEvent => (none, h)

/-- What one call of `InputHandler::mouse` does at the OS boundary: post a
synthesized event, move the cursor directly (`CGDisplayMoveCursorToPoint`),
hit the `unreachable!()` arm, or log and drop the event. -/
inductive MouseAction where
  | post (e : CGEventModel)
  | moveCursor (p : ℚ × ℚ)
  | unreachableCase
  | ignored
deriving DecidableEq, Repr

/-- Method `InputHandler::mouse` from `input.rs`.  Press/release arms set or clear
the single held-button slot and build the matching down/up event at the
last stored point; `Move` rescales the client-space point to server space
with the live `ScreenSize` ratio (`x * server.w / client.w`,
`y * server.h / client.h`), stores it, and either emits a drag event for
the held button (the `_` arm of that inner `match` is `unreachable!()`) or
moves the cursor directly; `VerticalScroll` emits a pixel-unit scroll
event; other variants are logged and ignored.  Mouse events are posted
as created — `apply_modifier_to_event` is never called on them. -/
def mouse (h : InputHandler) (ev : MouseEventM) : InputHandler × MouseAction :=
  match ev with
  | .leftPressed =>
      let h1 := { h with down_mouse_button := some .left }
      (h1, .post { type := .leftMouseDown, point := some h1.last_mouse_point,
                   button := some .left })
  | .leftReleased =>
      let h1 := { h with down_mouse_button := none }
      (h1, .post { type := .leftMouseUp, point := some h1.last_mouse_point,
                   button := some .left })
  | .rightPressed =>
      let h1 := { h with down_mouse_button := some .right }
      (h1, .post { type := .rightMouseDown, point := some h1.last_mouse_point,
                   button := some .right })
  | .rightReleased =>
      let h1 := { h with down_mouse_button := none }
      (h1, .post { type := .rightMouseUp, point := some h1.last_mouse_point,
                   button := some .right })
  | .move x y =>
      let sz := h.client_screen_size
      let p : ℚ × ℚ :=
        (((x : ℚ) * (sz.server.1 : ℚ)) / (sz.client.1 : ℚ),
         ((y : ℚ) * (sz.server.2 : ℚ)) / (sz.client.2 : ℚ))
      let h1 := { h with last_mouse_point := p }
      match h1.down_mouse_button with
      | some b =>
          match b with
          | .left =>
              (h1, .post { type := .leftMouseDragged, point := some p,
                           button := some .left })
          | .center =>
              (h1, .post { type := .otherMouseDragged, point := some p,
                           button := some .center })
          | .right =>
              (h1, .post { type := .rightMouseDragged, point := some p,
                           button := some .right })
          | .otherButton => (h1, .unreachableCase)
      | none => (h1, .moveCursor p)
  | .verticalScroll _ =>
      (h, .post { type := .scrollWheel })
  | .otherEvent => (h, .ignored)

/-- A whole session of mouse events: before each event the `watch` receiver
may observe a new `ScreenSize` (the per-event first component), then the
event is handled. -/
def mouseRun (h : InputHandler) (evs : List (ScreenSize × MouseEventM)) :
    InputHandler :=
  evs.foldl
    (fun h p => (mouse { h with client_screen_size := p.1 } p.2).1) h

/-- Struct `AudioCaptureDelegate` from `screen/sound.rs`: the `AtomicU32`
timestamp (`ts`), freshly created at `AudioStart` with value 0. -/
structure AudioCaptureDelegate where
  ts : Nat
deriving DecidableEq, Repr

/-- Callback `AudioCaptureDelegate::did_output_sample_buffer` from
`screen/sound.rs`, reduced to its effect once the raw sample bytes `data`
have been extracted from the native buffer: when the shared outbound sink
slot holds a sender the wave `(data, ts)` is sent to it, otherwise nothing
is sent; in both cases `ts.fetch_add(100)` then advances the timestamp by
the fixed step 100 with `u32` wraparound.  Nothing is buffered and the
callback never waits on the consumer. -/
def audio_did_output_sample_buffer (d : AudioCaptureDelegate)
    (data : List Nat) (sinkRegistered : Bool) :
    AudioCaptureDelegate × Option (List Nat × Nat) :=
  (⟨(d.ts + 100) % 2 ^ 32⟩,
   if sinkRegistered then some (data, d.ts) else none)

/-- The delegate after `n` delivered batches (sink registered throughout,
empty payloads — the timestamp does not depend on either). -/
def audioBatches : Nat → AudioCaptureDelegate
  | 0 => ⟨0⟩
  | n + 1 => (audio_did_output_sample_buffer (audioBatches n) [] true).1

/-- The held-button slot values the source ever stores: cleared, left, or
right. -/
def buttonOk (h : InputHandler) : Prop :=
  h.down_mouse_button = none ∨ h.down_mouse_button = some .left ∨
    h.down_mouse_button = some .right

theorem buttonOk_mouse_step (h : InputHandler) (e : MouseEventM)
    (hb : buttonOk h) : buttonOk (mouse h e).1 := by
  cases e with
  | leftPressed => simp [mouse, buttonOk]
  | leftReleased => simp [mouse, buttonOk]
  | rightPressed => simp [mouse, buttonOk]
  | rightReleased => simp [mouse, buttonOk]
  | move x y =>
      rcases hb with h1 | h1 | h1 <;> simp [mouse, h1, buttonOk]
  | verticalScroll v => simpa [mouse, buttonOk] using hb
  | otherEvent => simpa [mouse, buttonOk] using hb

theorem buttonOk_screen_size (h : InputHandler) (sz : ScreenSize)
    (hb : buttonOk h) : buttonOk { h with client_screen_size := sz } := by
  simpa [buttonOk] using hb

theorem buttonOk_mouseRun (h : InputHandler)
    (evs : List (ScreenSize × MouseEventM)) (hb : buttonOk h) :
    buttonOk (mouseRun h evs) := by
  induction evs generalizing h with
  | nil => simpa [mouseRun] using hb
  | cons p evs ih =>
      simpa [mouseRun] using
        ih _ (buttonOk_mouse_step _ _ (buttonOk_screen_size _ _ hb))

theorem mouse_no_unreachable_of_buttonOk (h : InputHandler)
    (e : MouseEventM) (hb : buttonOk h) :
    (mouse h e).2 ≠ MouseAction.unreachableCase := by
  cases e with
  | leftPressed => simp [mouse]
  | leftReleased => simp [mouse]
  | rightPressed => simp [mouse]
  | rightReleased => simp [mouse]
  | move x y => rcases hb with h1 | h1 | h1 <;> simp [mouse, h1]
  | verticalScroll v => simp [mouse]
  | otherEvent => simp [mouse]

/-- C9: over any session of mouse events starting from `InputHandler::new`
(with the watched `ScreenSize` changing arbitrarily between events), the
held-button slot only ever holds `None`, `Some(Left)` or `Some(Right)` —
never `Center` or any other button — so the `unreachable!()` arm of the
`Move` drag-event `match` can never execute for the next event either. -/
theorem held_button_slot_safe (sz0 sz : ScreenSize)
    (evs : List (ScreenSize × MouseEventM)) (e : MouseEventM) :
    buttonOk (mouseRun (InputHandler.new sz0) evs)
  ∧ (mouse { mouseRun (InputHandler.new sz0) evs with
              client_screen_size := sz } e).2
      ≠ MouseAction.unreachableCase := by
  have hb : buttonOk (mouseRun (InputHandler.new sz0) evs) :=
    buttonOk_mouseRun _ _ (Or.inl rfl)
  exact ⟨hb, mouse_no_unreachable_of_buttonOk _ _
    (buttonOk_screen_size _ _ hb)⟩

/-- C4: executing `SetSize(w,h)` changes only the client component of
`ScreenSize` (the server component is untouched), the watchers are
notified exactly when `(w,h)` differs from the previous client value, and
repeating the same `SetSize` is a no-op that notifies nobody. -/
theorem setSize_updates_client_only (s : ScreenCaptureContext)
    (w h : Nat) :
    (handle_display_job s (.setSize w h)).1.displaySize.server
        = s.displaySize.server
  ∧ (handle_display_job s (.setSize w h)).1.displaySize.client = (w, h)
  ∧ ((handle_display_job s (.setSize w h)).2 = .setSizeDone true
        ↔ s.displaySize.client ≠ (w, h))
  ∧ handle_display_job (handle_display_job s (.setSize w h)).1
        (.setSize w h)
      = ((handle_display_job s (.setSize w h)).1, .setSizeDone false) := by
  by_cases hc : s.displaySize.client = (w, h) <;>
    simp [handle_display_job, hc]

/-- An idle actor context: no outputs attached, no triple buffer
allocated. -/
def idleContext : ScreenCaptureContext :=
  { displaySize := { client := (1280, 720), server := (2560, 1440) },
    screenOutputs := [], audioOutputs := [], nextOutputHandle := 0,
    tripleBuffers := [] }

/-- C1 counterexample: two consecutive `CaptureStart` jobs on an idle
session leave TWO attached native output callbacks and TWO allocated
triple buffers — the `CaptureStart` arm has no "already capturing" guard,
so the second start does allocate a second triple-buffer and attach a
second output. -/
theorem captureStart_double_attach :
    (handle_display_job (handle_display_job idleContext .captureStart).1
        .captureStart).1.screenOutputs.length = 2
  ∧ (handle_display_job (handle_display_job idleContext .captureStart).1
        .captureStart).1.tripleBuffers.length = 2 := by
  exact ⟨rfl, rfl⟩

/-- C1 (amended): the actor keeps no capturing/idle state — EVERY
`CaptureStart`, whether or not a capture is already active, allocates a
fresh triple-buffer whose initial value is sized from the current server
resolution, attaches one new native output callback with a fresh opaque
handle, leaves the screen size untouched and replies with a frame-pulling
handle carrying that new index; in particular a second `CaptureStart`
before any stop produces a second attachment. -/
theorem captureStart_always_attaches (s : ScreenCaptureContext) :
    (handle_display_job s .captureStart).1.screenOutputs
        = s.screenOutputs ++ [s.nextOutputHandle]
  ∧ (handle_display_job s .captureStart).1.tripleBuffers
        = s.tripleBuffers ++
            [{ x := 0, y := 0, width := s.displaySize.server.1,
               height := s.displaySize.server.2, data := [] }]
  ∧ (handle_display_job s .captureStart).2
        = .captureStarted { index := s.nextOutputHandle }
  ∧ (handle_display_job s .captureStart).1.displaySize = s.displaySize := by
  exact ⟨rfl, rfl, rfl, rfl⟩

/-- C7: the `AudioStop` job does NOT detach the audio output callback —
the source's `Job::Stop` arm only logs (its `remove_output_handler` call
is commented out), so the context is left unchanged and a callback
attached by a preceding `AudioStart` stays attached and keeps forwarding
captured sample batches. -/
theorem audioStop_leaves_callback_attached (s : ScreenCaptureContext) :
    handle_sound_job s .stop = s
  ∧ (handle_sound_job (handle_sound_job s .start) .stop).audioOutputs
      = s.audioOutputs ++ [s.nextOutputHandle] := by
  exact ⟨rfl, rfl⟩

/-- C10: whenever `next_update` completes (the awaited notification has
fired), it returns `Some` of the bitmap update built from the then-current
triple-buffer output slot — the stream never yields `None`, so it never
signals termination to the protocol consumer. -/
theorem next_update_never_none (s : RelayState)
    (hn : s.notified = true) :
    next_update s
      = some (.bitmap (mkBitmapUpdate
                ((s.buf.update).1.peek_output_buffer)),
              { buf := (s.buf.update).1, notified := false }) := by
  simp [next_update, hn]

/-- A concrete relay state whose notification flag is up. -/
def notifiedRelay : RelayState :=
  { buf := { input := ⟨0, 0, 0, 0, []⟩, back := ⟨0, 0, 8, 4, [7]⟩,
             output := ⟨0, 0, 0, 0, []⟩, dirty := true },
    notified := true }

theorem next_update_never_none_witness :
    notifiedRelay.notified = true
  ∧ next_update notifiedRelay
      = some (.bitmap (mkBitmapUpdate
                ((notifiedRelay.buf.update).1.peek_output_buffer)),
              { buf := (notifiedRelay.buf.update).1, notified := false }) :=
  ⟨rfl, next_update_never_none notifiedRelay rfl⟩

/-- A job queue already at the bounded channel's capacity. -/
def fullQueue : List ScreenJobM :=
  List.replicate screenJobChannelCapacity (.display .getSize)

/-- C3 counterexample: dropping a `DisplayUpdates` handle while the
bounded job queue is full enqueues NOTHING — the `Drop` impl uses a
best-effort `try_send` and discards its error, so no `CaptureStop` job is
enqueued at all, refuting "deterministically enqueues exactly one
`CaptureStop` job". -/
theorem drop_stop_lost_when_queue_full :
    displayUpdatesDrop { index := 0 } fullQueue = fullQueue
  ∧ ScreenJobM.display (.captureStop 0) ∉ fullQueue := by
  exact ⟨rfl, by decide⟩

/-- C3 (amended): dropping the consumer handle best-effort-enqueues the
stop: whenever the bounded job queue is below capacity, exactly one
`CaptureStop` job carrying the very index the originating `CaptureStart`
assigned is appended (with a full or closed queue the job is silently
dropped); executing that `CaptureStop` detaches exactly the matching
output callback, and a repeated `CaptureStop` for the already-detached
handle is a no-op. -/
theorem drop_enqueues_stop_when_space (s : ScreenCaptureContext)
    (q : List ScreenJobM) (hq : q.length < screenJobChannelCapacity)
    (hfresh : s.nextOutputHandle ∉ s.screenOutputs) :
    (handle_display_job s .captureStart).2
        = .captureStarted { index := s.nextOutputHandle }
  ∧ displayUpdatesDrop { index := s.nextOutputHandle } q
        = q ++ [.display (.captureStop s.nextOutputHandle)]
  ∧ (handle_display_job (handle_display_job s .captureStart).1
        (.captureStop s.nextOutputHandle)).1.screenOutputs
      = s.screenOutputs
  ∧ handle_display_job
        (handle_display_job (handle_display_job s .captureStart).1
          (.captureStop s.nextOutputHandle)).1
        (.captureStop s.nextOutputHandle)
      = ((handle_display_job (handle_display_job s .captureStart).1
          (.captureStop s.nextOutputHandle)).1, .stopped) := by
  have h3 : (handle_display_job (handle_display_job s .captureStart).1
      (.captureStop s.nextOutputHandle)).1.screenOutputs
      = s.screenOutputs := by
    simp [handle_display_job, add_output_handler, remove_output_handler]
    rw [List.erase_append_right _ hfresh]
    simp
  have hnoop : ∀ (t : ScreenCaptureContext),
      s.nextOutputHandle ∉ t.screenOutputs →
      handle_display_job t (.captureStop s.nextOutputHandle)
        = (t, .stopped) := by
    intro t hidx
    cases t with
    | mk ds so ao nh tb =>
        simp [handle_display_job, remove_output_handler,
          List.erase_of_not_mem hidx]
  refine ⟨rfl, ?_, h3, ?_⟩
  · simp [displayUpdatesDrop, try_send, hq]
  · exact hnoop _ (by rw [h3]; exact hfresh)

theorem drop_enqueues_stop_when_space_witness :
    (([] : List ScreenJobM).length < screenJobChannelCapacity
      ∧ idleContext.nextOutputHandle ∉ idleContext.screenOutputs)
  ∧ ((handle_display_job idleContext .captureStart).2
        = .captureStarted { index := idleContext.nextOutputHandle }
    ∧ displayUpdatesDrop { index := idleContext.nextOutputHandle } []
        = [] ++ [.display (.captureStop idleContext.nextOutputHandle)]
    ∧ (handle_display_job (handle_display_job idleContext .captureStart).1
          (.captureStop idleContext.nextOutputHandle)).1.screenOutputs
        = idleContext.screenOutputs
    ∧ handle_display_job
          (handle_display_job (handle_display_job idleContext .captureStart).1
            (.captureStop idleContext.nextOutputHandle)).1
          (.captureStop idleContext.nextOutputHandle)
        = ((handle_display_job (handle_display_job idleContext .captureStart).1
            (.captureStop idleContext.nextOutputHandle)).1, .stopped)) :=
  ⟨⟨by decide, by decide⟩,
   drop_enqueues_stop_when_space idleContext [] (by decide) (by decide)⟩

/-- C2: after `N ≥ 1` publishes with no intervening consumer read, the
next `next_update` that completes returns exactly the latest published
frame (as the bitmap update built from it) — never an earlier one — and
returns it exactly once: the post-read relay state suspends
(`next_update = none`) until the producer publishes again.  The producer
side never blocks: `did_output_sample_buffer` is a total function of the
relay state with no consumer-dependent precondition, and the state keeps
exactly three buffer slots however large `N` is. -/
theorem frame_relay_latest_once (s0 : RelayState)
    (frames : List CapturedData) (h : frames ≠ []) :
    next_update (publishAll s0 frames)
      = some (.bitmap (mkBitmapUpdate (frames.getLast h)),
              { buf := ((publishAll s0 frames).buf.update).1,
                notified := false })
  ∧ next_update { buf := ((publishAll s0 frames).buf.update).1,
                  notified := false } = none := by
  constructor
  · rcases List.eq_nil_or_concat frames with rfl | ⟨fs, f, rfl⟩
    · exact absurd rfl h
    · have hg : (fs.concat f).getLast h = f := List.getLast_concat' fs
      rw [hg]
      simp [publishAll, List.concat_eq_append, List.foldl_append,
        did_output_sample_buffer, next_update, TripleBuffer.publish,
        TripleBuffer.update, TripleBuffer.peek_output_buffer]
  · simp [next_update]

/-- A relay whose three slots all start empty (the `CaptureStart`
initial value). -/
def relay0 : RelayState :=
  { buf := { input := ⟨0, 0, 0, 0, []⟩, back := ⟨0, 0, 0, 0, []⟩,
             output := ⟨0, 0, 0, 0, []⟩, dirty := false },
    notified := false }

def frameA : CapturedData := ⟨0, 0, 2, 1, [1, 2, 3, 4, 5, 6, 7, 8]⟩

def frameB : CapturedData := ⟨1, 1, 1, 1, [9, 9, 9, 9]⟩

theorem frame_relay_latest_once_witness :
    ([frameA, frameB] : List CapturedData) ≠ []
  ∧ (next_update (publishAll relay0 [frameA, frameB])
      = some (.bitmap (mkBitmapUpdate
                (([frameA, frameB] : List CapturedData).getLast (by decide))),
              { buf := ((publishAll relay0 [frameA, frameB]).buf.update).1,
                notified := false })
    ∧ next_update
        { buf := ((publishAll relay0 [frameA, frameB]).buf.update).1,
          notified := false } = none) :=
  ⟨by decide, frame_relay_latest_once relay0 [frameA, frameB] (by decide)⟩

theorem mouse_move_point (h : InputHandler) (x y : Nat) :
    (mouse h (.move x y)).1.last_mouse_point
      = (((x : ℚ) * (h.client_screen_size.server.1 : ℚ))
            / (h.client_screen_size.client.1 : ℚ),
         ((y : ℚ) * (h.client_screen_size.server.2 : ℚ))
            / (h.client_screen_size.client.2 : ℚ)) := by
  rcases hb : h.down_mouse_button with _ | b
  · simp [mouse, hb]
  · cases b <;> simp [mouse, hb]

/-- C5: a `Move{x,y}` stores the pointer position
`(x * server.w / client.w, y * server.h / client.h)` computed from the
`ScreenSize` live at the event; with `client = server` the scaling is the
identity, it is monotone in `x` and in `y`, and the spec scenario
(client 1280×720, server 2560×1440, `Move{640,360}`) lands on server
point `(1280, 720)`. -/
theorem mouse_move_scaling (h : InputHandler) (x y x2 y2 : Nat)
    (hc1 : 0 < h.client_screen_size.client.1)
    (hc2 : 0 < h.client_screen_size.client.2) :
    (mouse h (.move x y)).1.last_mouse_point
      = (((x : ℚ) * (h.client_screen_size.server.1 : ℚ))
            / (h.client_screen_size.client.1 : ℚ),
         ((y : ℚ) * (h.client_screen_size.server.2 : ℚ))
            / (h.client_screen_size.client.2 : ℚ))
  ∧ (h.client_screen_size.client = h.client_screen_size.server →
      (mouse h (.move x y)).1.last_mouse_point = ((x : ℚ), (y : ℚ)))
  ∧ (x ≤ x2 → (mouse h (.move x y)).1.last_mouse_point.1
      ≤ (mouse h (.move x2 y)).1.last_mouse_point.1)
  ∧ (y ≤ y2 → (mouse h (.move x y)).1.last_mouse_point.2
      ≤ (mouse h (.move x y2)).1.last_mouse_point.2)
  ∧ (mouse (InputHandler.new
        { client := (1280, 720), server := (2560, 1440) })
        (.move 640 360)).1.last_mouse_point
      = ((1280 : ℚ), (720 : ℚ)) := by
  have hne1 : (h.client_screen_size.client.1 : ℚ) ≠ 0 :=
    Nat.cast_ne_zero.mpr hc1.ne'
  have hne2 : (h.client_screen_size.client.2 : ℚ) ≠ 0 :=
    Nat.cast_ne_zero.mpr hc2.ne'
  refine ⟨mouse_move_point h x y, ?_, ?_, ?_,
    by norm_num [mouse, InputHandler.new]⟩
  · intro hcs
    have h1 : h.client_screen_size.client.1
        = h.client_screen_size.server.1 := by rw [hcs]
    have h2 : h.client_screen_size.client.2
        = h.client_screen_size.server.2 := by rw [hcs]
    rw [mouse_move_point, ← h1, ← h2,
      mul_div_cancel_right₀ _ hne1, mul_div_cancel_right₀ _ hne2]
  · intro hx
    have f1 : (mouse h (.move x y)).1.last_mouse_point.1
        = ((x : ℚ) * (h.client_screen_size.server.1 : ℚ))
            / (h.client_screen_size.client.1 : ℚ) := by
      rw [mouse_move_point]
    have f2 : (mouse h (.move x2 y)).1.last_mouse_point.1
        = ((x2 : ℚ) * (h.client_screen_size.server.1 : ℚ))
            / (h.client_screen_size.client.1 : ℚ) := by
      rw [mouse_move_point]
    have hcpos : (0 : ℚ) < h.client_screen_size.client.1 := by
      exact_mod_cast hc1
    have hxq : ((x : ℚ)) ≤ (x2 : ℚ) := by exact_mod_cast hx
    rw [f1, f2]
    exact (div_le_div_iff_of_pos_right hcpos).mpr
      (mul_le_mul_of_nonneg_right hxq (by positivity))
  · intro hy
    have f1 : (mouse h (.move x y)).1.last_mouse_point.2
        = ((y : ℚ) * (h.client_screen_size.server.2 : ℚ))
            / (h.client_screen_size.client.2 : ℚ) := by
      rw [mouse_move_point]
    have f2 : (mouse h (.move x y2)).1.last_mouse_point.2
        = ((y2 : ℚ) * (h.client_screen_size.server.2 : ℚ))
            / (h.client_screen_size.client.2 : ℚ) := by
      rw [mouse_move_point]
    have hcpos : (0 : ℚ) < h.client_screen_size.client.2 := by
      exact_mod_cast hc2
    have hyq : ((y : ℚ)) ≤ (y2 : ℚ) := by exact_mod_cast hy
    rw [f1, f2]
    exact (div_le_div_iff_of_pos_right hcpos).mpr
      (mul_le_mul_of_nonneg_right hyq (by positivity))

/-- The handler of the spec scenario: client 1280×720,
server 2560×1440. -/
def sz1280 : ScreenSize := { client := (1280, 720), server := (2560, 1440) }

theorem mouse_move_scaling_witness :
    (0 < (InputHandler.new sz1280).client_screen_size.client.1
      ∧ 0 < (InputHandler.new sz1280).client_screen_size.client.2)
  ∧ ((mouse (InputHandler.new sz1280) (.move 640 360)).1.last_mouse_point
      = (((640 : Nat) : ℚ)
            * (((InputHandler.new sz1280).client_screen_size.server.1 : Nat) : ℚ)
            / (((InputHandler.new sz1280).client_screen_size.client.1 : Nat) : ℚ),
         ((360 : Nat) : ℚ)
            * (((InputHandler.new sz1280).client_screen_size.server.2 : Nat) : ℚ)
            / (((InputHandler.new sz1280).client_screen_size.client.2 : Nat) : ℚ))
    ∧ ((InputHandler.new sz1280).client_screen_size.client
          = (InputHandler.new sz1280).client_screen_size.server →
        (mouse (InputHandler.new sz1280) (.move 640 360)).1.last_mouse_point
          = (((640 : Nat) : ℚ), ((360 : Nat) : ℚ)))
    ∧ (640 ≤ 641 →
        (mouse (InputHandler.new sz1280) (.move 640 360)).1.last_mouse_point.1
          ≤ (mouse (InputHandler.new sz1280)
              (.move 641 360)).1.last_mouse_point.1)
    ∧ (360 ≤ 361 →
        (mouse (InputHandler.new sz1280) (.move 640 360)).1.last_mouse_point.2
          ≤ (mouse (InputHandler.new sz1280)
              (.move 640 361)).1.last_mouse_point.2)
    ∧ (mouse (InputHandler.new
          { client := (1280, 720), server := (2560, 1440) })
          (.move 640 360)).1.last_mouse_point
        = ((1280 : ℚ), (720 : ℚ))) :=
  ⟨⟨by decide, by decide⟩,
   mouse_move_scaling (InputHandler.new sz1280) 640 360 641 361
     (by decide) (by decide)⟩

theorem apply_modifier_flags (m : Modifiers) (e : CGEventModel)
    (he : e.flags = 0) :
    (apply_modifier_to_event m e).flags = modifier_flags m := by
  unfold apply_modifier_to_event
  by_cases hf : modifier_flags m = 0
  · simp [hf, he]
  · simp [hf]

/-- A handler whose persistent modifier state has Command held. -/
def cmdHandler : InputHandler :=
  { InputHandler.new sz1280 with
    modifier_state :=
      { shift := false, command := true, option := false,
        control := false } }

/-- C6 counterexample: with Command recorded in the persistent modifier
state (so the flag mask is non-zero), a subsequently generated unicode
keyboard event and a subsequently generated mouse event both carry flag
word `0` — `apply_modifier_to_event` is only called on table-mapped
keyboard events, so the mask is NOT applied to every subsequently
generated injected event. -/
theorem modifier_mask_skips_unicode_and_mouse :
    modifier_flags cmdHandler.modifier_state ≠ 0
  ∧ (convert_keyboard_event cmdHandler (.unicodePressed 65)).1
      = some { type := .unicodeKeyDown 65 }
  ∧ (mouse cmdHandler .leftPressed).2
      = .post { type := .leftMouseDown, point := some (0, 0),
                button := some .left } := by
  refine ⟨by decide, rfl, rfl⟩

/-- C6 (amended): after a modifier key press/release updates the
persistent modifier state, the resulting flag mask is applied to every
subsequently generated TABLE-MAPPED keyboard event (`Pressed`/`Released`,
using the state as updated by that very translation) — but unicode
keyboard events and mouse events are generated with flag word `0`, the
mask is never applied to them. -/
theorem modifier_mask_on_table_mapped (h : InputHandler) (code c : Nat)
    (extended : Bool) (e1 e2 e3 : CGEventModel) (ev : MouseEventM)
    (h1 : (convert_keyboard_event h (.pressed code extended)).1 = some e1)
    (h2 : (convert_keyboard_event h (.released code extended)).1 = some e2)
    (h3 : (mouse h ev).2 = .post e3) :
    e1.flags = modifier_flags
        (convert_keyboard_event h (.pressed code extended)).2.modifier_state
  ∧ e2.flags = modifier_flags
        (convert_keyboard_event h (.released code extended)).2.modifier_state
  ∧ (convert_keyboard_event h (.unicodePressed c)).1
      = some { type := .unicodeKeyDown c }
  ∧ (convert_keyboard_event h (.unicodeReleased c)).1
      = some { type := .unicodeKeyUp c }
  ∧ e3.flags = 0 := by
  refine ⟨?_, ?_, rfl, rfl, ?_⟩
  · rcases hr : (convert_non_unicode_key code extended true
        h.modifier_state).1 with _ | vk
    · simp [convert_keyboard_event, hr] at h1
    · simp only [convert_keyboard_event, hr] at h1 ⊢
      rw [← Option.some_inj.mp h1]
      exact apply_modifier_flags _ _ rfl
  · rcases hr : (convert_non_unicode_key code extended false
        h.modifier_state).1 with _ | vk
    · simp [convert_keyboard_event, hr] at h2
    · simp only [convert_keyboard_event, hr] at h2 ⊢
      rw [← Option.some_inj.mp h2]
      exact apply_modifier_flags _ _ rfl
  · cases ev with
    | leftPressed => simp [mouse] at h3; rw [← h3]
    | leftReleased => simp [mouse] at h3; rw [← h3]
    | rightPressed => simp [mouse] at h3; rw [← h3]
    | rightReleased => simp [mouse] at h3; rw [← h3]
    | move x y =>
        rcases hb : h.down_mouse_button with _ | b
        · simp [mouse, hb] at h3
        · cases b <;> simp [mouse, hb] at h3 <;> rw [← h3]
    | verticalScroll v => simp [mouse] at h3; rw [← h3]
    | otherEvent => simp [mouse] at h3

/-- A handler whose persistent modifier state has Shift held. -/
def shiftHandler : InputHandler :=
  { InputHandler.new sz1280 with
    modifier_state :=
      { shift := true, command := false, option := false,
        control := false } }

theorem modifier_mask_on_table_mapped_witness :
    ((convert_keyboard_event shiftHandler (.pressed 30 false)).1
        = some { type := .keyDown 0x00, flags := maskShift }
      ∧ (convert_keyboard_event shiftHandler (.released 30 false)).1
        = some { type := .keyUp 0x00, flags := maskShift }
      ∧ (mouse shiftHandler .leftPressed).2
        = .post { type := .leftMouseDown, point := some (0, 0),
                  button := some .left })
  ∧ (({ type := .keyDown 0x00, flags := maskShift } : CGEventModel).flags
        = modifier_flags (convert_keyboard_event shiftHandler
            (.pressed 30 false)).2.modifier_state
    ∧ ({ type := .keyUp 0x00, flags := maskShift } : CGEventModel).flags
        = modifier_flags (convert_keyboard_event shiftHandler
            (.released 30 false)).2.modifier_state
    ∧ (convert_keyboard_event shiftHandler (.unicodePressed 66)).1
        = some { type := .unicodeKeyDown 66 }
    ∧ (convert_keyboard_event shiftHandler (.unicodeReleased 66)).1
        = some { type := .unicodeKeyUp 66 }
    ∧ (({ type := .leftMouseDown, point := some (0, 0),
          button := some .left } : CGEventModel).flags = 0)) :=
  ⟨⟨rfl, rfl, rfl⟩,
   modifier_mask_on_table_mapped shiftHandler 30 66 false
     { type := .keyDown 0x00, flags := maskShift }
     { type := .keyUp 0x00, flags := maskShift }
     { type := .leftMouseDown, point := some (0, 0), button := some .left }
     .leftPressed rfl rfl rfl⟩

theorem audioBatches_ts (n : Nat) :
    (audioBatches n).ts = (100 * n) % 2 ^ 32 := by
  induction n with
  | zero => rfl
  | succ n ih =>
      simp [audioBatches, audio_did_output_sample_buffer, ih,
        Nat.mod_add_mod, Nat.mul_succ]

/-- C8 counterexample: the timestamp is a `u32` advanced by 100 per batch,
so it wraps: with the sink registered throughout, delivered batch number
42949672 (0-based) is forwarded with timestamp 4294967200 while the NEXT
batch is forwarded with timestamp 4 — the forwarded timestamps are not
strictly increasing over every sequence of batches. -/
theorem audio_timestamp_wraps :
    (audio_did_output_sample_buffer (audioBatches 42949672) [] true).2
      = some ([], 4294967200)
  ∧ (audio_did_output_sample_buffer (audioBatches 42949673) [] true).2
      = some ([], 4)
  ∧ (4 : Nat) < 4294967200 := by
  refine ⟨?_, ?_, by norm_num⟩
  · simp only [audio_did_output_sample_buffer, audioBatches_ts]
    norm_num
  · simp only [audio_did_output_sample_buffer, audioBatches_ts]
    norm_num

/-- C8 (amended): each delivered batch is forwarded with the current
synthetic timestamp exactly when a sink is registered (with no sink it is
silently dropped — nothing is buffered, and the callback is a total
function applying no backpressure); the timestamp advances by the fixed
step 100 per delivered batch — sink or no sink — with `u32` wraparound
(`% 2^32`), so the forwarded timestamps are strictly increasing as long
as the number of delivered batches stays below the wrap point
(`100 * count < 2^32`). -/
theorem audio_timestamp_fixed_step (d : AudioCaptureDelegate)
    (data : List Nat) (n : Nat) (hn : 100 * (n + 1) < 2 ^ 32) :
    (audio_did_output_sample_buffer d data true).2 = some (data, d.ts)
  ∧ (audio_did_output_sample_buffer d data false).2 = none
  ∧ (audio_did_output_sample_buffer d data true).1.ts
      = (d.ts + 100) % 2 ^ 32
  ∧ (audio_did_output_sample_buffer d data false).1.ts
      = (d.ts + 100) % 2 ^ 32
  ∧ (audioBatches n).ts < (audioBatches (n + 1)).ts := by
  refine ⟨rfl, rfl, rfl, rfl, ?_⟩
  rw [audioBatches_ts, audioBatches_ts]
  have h1 : 100 * n < 2 ^ 32 := lt_trans (by omega) hn
  rw [Nat.mod_eq_of_lt h1, Nat.mod_eq_of_lt hn]
  omega

theorem audio_timestamp_fixed_step_witness :
    100 * (0 + 1) < 2 ^ 32
  ∧ ((audio_did_output_sample_buffer ⟨0⟩ [5, 6] true).2 = some ([5, 6], 0)
    ∧ (audio_did_output_sample_buffer ⟨0⟩ [5, 6] false).2 = none
    ∧ (audio_did_output_sample_buffer ⟨0⟩ [5, 6] true).1.ts
        = (0 + 100) % 2 ^ 32
    ∧ (audio_did_output_sample_buffer ⟨0⟩ [5, 6] false).1.ts
        = (0 + 100) % 2 ^ 32
    ∧ (audioBatches 0).ts < (audioBatches (0 + 1)).ts) :=
  ⟨by norm_num, audio_timestamp_fixed_step ⟨0⟩ [5, 6] 0 (by norm_num)⟩
